import Mathlib

/-!
Verification of the 360Backend REST service against its specification.

The definitions below are shallow embeddings of the JavaScript route
handlers, the auth middleware and the S3 service wrapper found in the
repository. External collaborators (the JWT library, the S3 client, the
MongoDB driver) are modelled as explicit oracle parameters: a token
verifier is a function from token strings to optional decoded payloads,
and the object store is a pair of success oracles for uploads and
deletions together with an event trace of the calls the handler issued.
-/

namespace Backend360

/-! ## JWT auth middleware (middlewares/requireAuths, src/models/Admin.js lines 14-72) -/

/-- Decoded JWT payload; the middleware only ever reads and re-signs userId. -/
structure JwtPayload where
  userId : String
deriving DecidableEq

/-- Outcome of the middleware on one request: either a rejection with an HTTP
status and error message, or the request proceeds with the decoded identity
attached to the request object and an optional Authorization response header. -/
inductive AuthOutcome where
  | reject (status : Nat) (error : String)
  | authorized (admin : JwtPayload) (authHeader : Option String)
deriving DecidableEq

/-- Removes the first occurrence of pat from the character list, as the
JavaScript String.replace with a string pattern and empty replacement does. -/
def removeFirst (pat : List Char) : List Char → List Char
  | [] => []
  | c :: cs =>
    if pat.isPrefixOf (c :: cs) then (c :: cs).drop pat.length
    else c :: removeFirst pat cs

/-- The JavaScript expression authorization.replace ofBearer with the empty
string: delete the first occurrence of the pattern. -/
def replaceFirst (s pat : String) : String :=
  String.mk (removeFirst pat.toList s.toList)

/-- Shallow embedding of the requireAuths middleware. verify stands for
jwt.verify with the shared secret (none models a thrown verification error);
sign stands for jwt.sign on a payload holding the given userId. The two
header inputs are req.headers.authorization and req.headers.refresh_token. -/
def requireAuths (verify : String → Option JwtPayload) (sign : String → String)
    (authorization refresh_token : Option String) : AuthOutcome :=
  match authorization, refresh_token with
  | none, none => AuthOutcome.reject 404 "Must be logged in"
  | some auth, rt =>
    let accessToken := replaceFirst auth "Bearer "
    match verify accessToken with
    | some payload => AuthOutcome.authorized payload none
    | none =>
      match rt with
      | some refreshToken =>
        match verify refreshToken with
        | some payload =>
          let newAccessToken := sign payload.userId
          AuthOutcome.authorized payload (some ("Bearer " ++ newAccessToken))
        | none => AuthOutcome.reject 403 "Invalid refresh token"
      | none =>
        AuthOutcome.reject 403 "Token expired, and no refresh token provided"
  | none, some _ => AuthOutcome.reject 403 "Unable to verify token"

/-- C7: a request whose access token fails verification but whose refresh
token verifies mints a new short-lived access token, places it in the
response Authorization header, attaches the decoded identity to the request
and proceeds as authorized. -/
theorem accessFail_refreshOk_authorizes
    (verify : String → Option JwtPayload) (sign : String → String)
    (auth refreshToken : String) (payload : JwtPayload)
    (hAccess : verify (replaceFirst auth "Bearer ") = none)
    (hRefresh : verify refreshToken = some payload) :
    requireAuths verify sign (some auth) (some refreshToken) =
      AuthOutcome.authorized payload (some ("Bearer " ++ sign payload.userId)) := by
  simp [requireAuths, hAccess, hRefresh]

/-- Witness for C7 at a concrete verifier and signer. -/
theorem accessFail_refreshOk_authorizes_witness :
    (fun t => if t = "good" then some ⟨"u1"⟩ else none : String → Option JwtPayload)
        (replaceFirst "Bearer bad" "Bearer ") = none ∧
    requireAuths (fun t => if t = "good" then some ⟨"u1"⟩ else none)
        (fun uid => "fresh-" ++ uid) (some "Bearer bad") (some "good") =
      AuthOutcome.authorized ⟨"u1"⟩ (some ("Bearer " ++ "fresh-u1")) := by
  refine ⟨by decide, ?_⟩
  exact accessFail_refreshOk_authorizes
    (fun t => if t = "good" then some ⟨"u1"⟩ else none)
    (fun uid => "fresh-" ++ uid) "Bearer bad" "good" ⟨"u1"⟩ (by decide) (by decide)

/-- C10: a request with a refresh_token header but no authorization header is
rejected 403 with the error Unable to verify token, even when the refresh
token verifies successfully; the refresh branch is inside the case on a
present authorization header, so the verifier result on the refresh token is
never consulted. -/
theorem refreshOnly_rejected
    (verify : String → Option JwtPayload) (sign : String → String)
    (refreshToken : String) (payload : JwtPayload)
    (_hValid : verify refreshToken = some payload) :
    requireAuths verify sign none (some refreshToken) =
      AuthOutcome.reject 403 "Unable to verify token" := by
  simp [requireAuths]

/-- Witness for C10 with a verifier that accepts the refresh token. -/
theorem refreshOnly_rejected_witness :
    (fun t => if t = "r0" then some ⟨"u9"⟩ else none : String → Option JwtPayload)
        "r0" = some ⟨"u9"⟩ ∧
    requireAuths (fun t => if t = "r0" then some ⟨"u9"⟩ else none)
        (fun uid => uid) none (some "r0") =
      AuthOutcome.reject 403 "Unable to verify token" := by
  refine ⟨by decide, ?_⟩
  exact refreshOnly_rejected (fun t => if t = "r0" then some ⟨"u9"⟩ else none)
    (fun uid => uid) "r0" ⟨"u9"⟩ (by decide)

/-! ## Admin routes (src/routes/admin.js) and the admin schema
(src/models/Admin.js lines 3-12). The schema declares exactly the fields
name, email and password; a MongoDB document of this collection therefore
carries no username attribute. -/

/-- An admin document as stored under the adminSchema. -/
structure AdminRec where
  name : String
  email : String
  password : String
deriving DecidableEq

/-- A generic JSON response: HTTP status plus the message field of the body. -/
structure Resp where
  status : Nat
  message : String
deriving DecidableEq

/-- Field access on a stored admin document, as the MongoDB query engine sees
it: the schema fields are present, every other path is absent. -/
def adminField (a : AdminRec) (field : String) : Option String :=
  if field = "name" then some a.name
  else if field = "email" then some a.email
  else if field = "password" then some a.password
  else none

/-- Admin.findOne with a single-field equality filter: the first document
whose named field exists and equals the value. -/
def adminFindOne (db : List AdminRec) (field value : String) : Option AdminRec :=
  db.find? fun a => adminField a field == some value

/-- JavaScript truthiness test !x for a request body string field: absent or
empty strings are falsy. -/
def falsyStr : Option String → Bool
  | none => true
  | some s => s = ""

/-- Result of POST /addAdmin: an error response, or 201 with the updated
collection after the save. -/
inductive AddAdminResult where
  | rejected (resp : Resp)
  | created (db : List AdminRec)
deriving DecidableEq

/-- Shallow embedding of the POST /addAdmin handler (src/routes/admin.js
lines 65-97): validate presence of all three fields, pre-check email
uniqueness with findOne on email, then save the new document. -/
def addAdmin (db : List AdminRec)
    (name email password : Option String) : AddAdminResult :=
  if falsyStr name || falsyStr email || falsyStr password then
    AddAdminResult.rejected ⟨400, "All fields are required"⟩
  else
    match name, email, password with
    | some n, some e, some p =>
      match adminFindOne db "email" e with
      | some _ => AddAdminResult.rejected ⟨400, "Admin with this email already exists"⟩
      | none => AddAdminResult.created (db ++ [⟨n, e, p⟩])
    | _, _, _ => AddAdminResult.rejected ⟨400, "All fields are required"⟩

/-- Shallow embedding of the POST /loginAdmin handler (src/routes/admin.js
lines 162-184): validate presence, look up Admin.findOne with the filter on
the username field, and compare the stored password. -/
def loginAdmin (db : List AdminRec) (username password : Option String) : Resp :=
  if falsyStr username || falsyStr password then
    ⟨400, "username and password are required"⟩
  else
    match username, password with
    | some u, some p =>
      match adminFindOne db "username" u with
      | some admin => if admin.password = p then ⟨200, "User is an admin"⟩
                      else ⟨401, "Invalid credentials"⟩
      | none => ⟨401, "Invalid credentials"⟩
    | _, _ => ⟨400, "username and password are required"⟩

/-- C8: with all three fields present and non-empty, addAdmin rejects with
400 exactly when some stored admin already has the submitted email, and
otherwise appends the new admin record with a 201. -/
theorem addAdmin_email_uniqueness (db : List AdminRec) (n e p : String)
    (hn : n ≠ "") (he : e ≠ "") (hp : p ≠ "") :
    (addAdmin db (some n) (some e) (some p) =
        if db.any (fun a => a.email = e) then
          AddAdminResult.rejected ⟨400, "Admin with this email already exists"⟩
        else AddAdminResult.created (db ++ [⟨n, e, p⟩])) := by
  have hguard : (falsyStr (some n) || falsyStr (some e) || falsyStr (some p)) = false := by
    simp [falsyStr, hn, he, hp]
  have hfield : ∀ x : AdminRec, adminField x "email" = some x.email := by
    intro x; simp [adminField]
  rcases hcase : adminFindOne db "email" e with _ | a
  · have hany : db.any (fun a => a.email = e) = false := by
      rw [adminFindOne, List.find?_eq_none] at hcase
      simp only [List.any_eq_false]
      intro x hx
      have := hcase x hx
      simp only [hfield] at this
      simpa using this
    simp [addAdmin, hguard, hcase, hany]
  · have hany : db.any (fun a => a.email = e) = true := by
      rw [adminFindOne] at hcase
      have hmem := List.mem_of_find?_eq_some hcase
      have hpred := List.find?_some hcase
      simp only [hfield] at hpred
      refine List.any_eq_true.mpr ⟨a, hmem, ?_⟩
      simpa using hpred
    simp [addAdmin, hguard, hcase, hany]

/-- Witness for C8 at a concrete collection: a duplicate email is rejected
and a fresh email is appended. -/
theorem addAdmin_email_uniqueness_witness :
    ("ann" : String) ≠ "" ∧
    addAdmin [⟨"ann", "ann@x.com", "pw1"⟩] (some "bob") (some "ann@x.com") (some "pw2") =
      AddAdminResult.rejected ⟨400, "Admin with this email already exists"⟩ ∧
    addAdmin [⟨"ann", "ann@x.com", "pw1"⟩] (some "bob") (some "bob@x.com") (some "pw2") =
      AddAdminResult.created [⟨"ann", "ann@x.com", "pw1"⟩, ⟨"bob", "bob@x.com", "pw2"⟩] := by
  refine ⟨by decide, ?_, ?_⟩
  · have h := addAdmin_email_uniqueness [⟨"ann", "ann@x.com", "pw1"⟩]
      "bob" "ann@x.com" "pw2" (by decide) (by decide) (by decide)
    simpa using h
  · have h := addAdmin_email_uniqueness [⟨"ann", "ann@x.com", "pw1"⟩]
      "bob" "bob@x.com" "pw2" (by decide) (by decide) (by decide)
    simpa using h

/-- C9: the loginAdmin lookup filters on a username field that no document of
the admin schema carries, so for every collection state and every present,
non-empty credential pair the response is 401 Invalid credentials; in
particular the outcome never depends on the submitted username matching a
stored name or email, nor on the password matching a stored password. -/
theorem loginAdmin_username_never_matches (db : List AdminRec) (u p : String)
    (hu : u ≠ "") (hp : p ≠ "") :
    loginAdmin db (some u) (some p) = ⟨401, "Invalid credentials"⟩ := by
  have hfind : adminFindOne db "username" u = none := by
    rw [adminFindOne, List.find?_eq_none]
    intro a _
    simp [adminField]
  simp [loginAdmin, falsyStr, hu, hp, hfind]

/-- Witness for C9: even with a stored admin whose name and password equal the
submitted username and password, login answers 401. -/
theorem loginAdmin_username_never_matches_witness :
    ("bob" : String) ≠ "" ∧
    loginAdmin [⟨"bob", "bob@x.com", "pw"⟩] (some "bob") (some "pw") =
      ⟨401, "Invalid credentials"⟩ := by
  exact ⟨by decide,
    loginAdmin_username_never_matches [⟨"bob", "bob@x.com", "pw"⟩]
      "bob" "pw" (by decide) (by decide)⟩

/-! ## Object store model (src services s3Service, src/unnamed/part_002)
uploadFile issues a PutObjectCommand and resolves with no value (its promise
carries undefined); deleteFile issues a DeleteObjectCommand. We record the
calls a handler makes as an event trace and let an oracle decide which calls
succeed. -/

/-- One call to the object store: a put or a delete of a key. -/
inductive S3Event where
  | put (key : String)
  | del (key : String)
deriving DecidableEq

/-- Failure oracle for the object store: which upload and delete calls the
remote end accepts. -/
structure S3 where
  uploadOk : String → Bool
  deleteOk : String → Bool

/-- The JavaScript idiom url.split (slash).pop (): the final slash-separated
segment of a URL, used everywhere as the stored-object key. For the
single-character separator this is exactly the run of characters after the
last slash (empty when the URL ends in a slash), computed here by a
structural fold so that concrete runs reduce. -/
def popSegment (url : String) : String :=
  String.mk (url.toList.foldl (fun seg c => if c = '/' then [] else seg ++ [c]) [])

/-- The URL template used by addProject, addPartner and the active
updateProject copy: https with bucket, the literal s3.amazonaws.com host with
no region segment, then the key. -/
def s3UrlNoRegion (bucket key : String) : String :=
  "https://" ++ bucket ++ ".s3.amazonaws.com/" ++ key

/-- The URL template used by addVideo, addImages and the part_007
updateProject variant: host segment s3 dot region dot amazonaws.com. -/
def s3UrlWithRegion (bucket region key : String) : String :=
  "https://" ++ bucket ++ ".s3." ++ region ++ ".amazonaws.com/" ++ key

/-- Modelled from the spec: the canonical publicUrl (bucket, region, key)
formatting of section 4.1, pure string composition with the region segment
present. Stated separately from the source templates so that the stored URLs
can be compared against it. -/
def publicUrl_spec (bucket region key : String) : String :=
  "https://" ++ bucket ++ ".s3." ++ region ++ ".amazonaws.com/" ++ key

/-! ## Project data model (src/models/Project.js) and route handlers
(src/routes/projects.js, src/unnamed/part_007). -/

/-- A project document: title, location, year, description, ordered image URL
list, optional video URL. -/
structure ProjectRec where
  title : String
  location : String
  year : Int
  description : String
  images : List String
  video : Option String
deriving DecidableEq

/-- A multer file part: the original client-side filename (used as the S3
key), the temporary local path and the MIME type. -/
structure FilePart where
  originalname : String
  path : String
  mimetype : String
deriving DecidableEq

/-- The parsed PUT /updateProject request: optional scalar fields plus the
uploaded image files and optional video file. -/
structure UpdateReq where
  title : Option String
  location : Option String
  year : Option Int
  description : Option String
  images : List FilePart
  video : Option FilePart
deriving DecidableEq

/-- Handler outcome: response status, the document written by save (none when
no database write happened), and the object-store calls issued in order. -/
structure HandlerResult where
  status : Nat
  saved : Option ProjectRec
  events : List S3Event
deriving DecidableEq

/-- The imagesToDelete computation of the update handlers: every existing URL
survives only when some submitted file carries exactly its final URL segment
as originalname; all others are scheduled for deletion. -/
def imagesToDelete (newImages : List FilePart) (existingImages : List String) :
    List String :=
  existingImages.filter fun url =>
    ! newImages.any fun image => image.originalname == popSegment url

/-- The sequential await deleteFile loop of the update handlers: issue the
deletes in order; a rejected delete throws, so later keys are not attempted.
Returns the trace together with whether the whole loop completed. -/
def runDeletes (s3 : S3) : List String → List S3Event × Bool
  | [] => ([], true)
  | k :: ks =>
    if s3.deleteOk k then
      let rest := runDeletes s3 ks
      (S3Event.del k :: rest.1, rest.2)
    else ([S3Event.del k], false)

/-- Shallow embedding of the active PUT /updateProject handler
(src/routes/projects.js lines 230-325). Scalar fields use the nullish
coalescing pattern; imagesToDelete keeps every existing URL with no submitted
file of the same filename; deletes run sequentially inside the try block, so
a failure aborts with 400; uploads are all started by the map, Promise.all
fails if any is rejected; uploadFile resolves with no value, so the appended
image URLs interpolate the string undefined; a present video file replaces
the old video, while an absent one triggers the else branch that deletes the
stored video and nulls the field; save runs only at the end. -/
def updateProject (bucket : String) (s3 : S3) (req : UpdateReq)
    (found : Option ProjectRec) : HandlerResult :=
  match found with
  | none => { status := 404, saved := none, events := [] }
  | some existingProject =>
    let p1 : ProjectRec :=
      { existingProject with
        title := req.title.getD existingProject.title
        location := req.location.getD existingProject.location
        year := req.year.getD existingProject.year
        description := req.description.getD existingProject.description }
    let newImages := req.images
    let existingImages := p1.images
    let stale := imagesToDelete newImages existingImages
    let del := runDeletes s3 (stale.map popSegment)
    if ! del.2 then { status := 400, saved := none, events := del.1 }
    else
      let putEvents := newImages.map fun image => S3Event.put image.originalname
      if ! newImages.all (fun image => s3.uploadOk image.originalname) then
        { status := 400, saved := none, events := del.1 ++ putEvents }
      else
        let uploadedImageUrls : List String := newImages.map fun _ => "undefined"
        let images2 :=
          existingImages.filter (fun url => ! stale.contains url)
            ++ uploadedImageUrls.map fun url => s3UrlNoRegion bucket url
        let p2 := { p1 with images := images2 }
        match req.video with
        | some video =>
          let oldDel : List S3Event × Bool :=
            match p2.video with
            | some oldUrl =>
              ([S3Event.del (popSegment oldUrl)], s3.deleteOk (popSegment oldUrl))
            | none => ([], true)
          if ! oldDel.2 then
            { status := 400, saved := none, events := del.1 ++ putEvents ++ oldDel.1 }
          else if ! s3.uploadOk video.originalname then
            { status := 400, saved := none,
              events := del.1 ++ putEvents ++ oldDel.1 ++ [S3Event.put video.originalname] }
          else
            { status := 200,
              saved := some { p2 with video := some (s3UrlNoRegion bucket video.originalname) },
              events := del.1 ++ putEvents ++ oldDel.1 ++ [S3Event.put video.originalname] }
        | none =>
          match p2.video with
          | some oldUrl =>
            if s3.deleteOk (popSegment oldUrl) then
              { status := 200, saved := some { p2 with video := none },
                events := del.1 ++ putEvents ++ [S3Event.del (popSegment oldUrl)] }
            else
              { status := 400, saved := none,
                events := del.1 ++ putEvents ++ [S3Event.del (popSegment oldUrl)] }
          | none => { status := 200, saved := some p2, events := del.1 ++ putEvents }

/-- Shallow embedding of the PUT /updateProject variant kept in
src/unnamed/part_007 lines 277-369. It differs from the active copy in two
places: each upload promise is chained with then to yield the region-bearing
public URL of its key, and there is no else branch on the video, so an absent
video file leaves the stored video untouched. -/
def updateProjectVariant (bucket region : String) (s3 : S3) (req : UpdateReq)
    (found : Option ProjectRec) : HandlerResult :=
  match found with
  | none => { status := 404, saved := none, events := [] }
  | some existingProject =>
    let p1 : ProjectRec :=
      { existingProject with
        title := req.title.getD existingProject.title
        location := req.location.getD existingProject.location
        year := req.year.getD existingProject.year
        description := req.description.getD existingProject.description }
    let newImages := req.images
    let existingImages := p1.images
    let stale := imagesToDelete newImages existingImages
    let del := runDeletes s3 (stale.map popSegment)
    if ! del.2 then { status := 400, saved := none, events := del.1 }
    else
      let putEvents := newImages.map fun image => S3Event.put image.originalname
      if ! newImages.all (fun image => s3.uploadOk image.originalname) then
        { status := 400, saved := none, events := del.1 ++ putEvents }
      else
        let uploadedImageUrls : List String := newImages.map fun image =>
          s3UrlWithRegion bucket region image.originalname
        let images2 :=
          existingImages.filter (fun url => ! stale.contains url)
            ++ uploadedImageUrls
        let p2 := { p1 with images := images2 }
        match req.video with
        | some video =>
          let oldDel : List S3Event × Bool :=
            match p2.video with
            | some oldUrl =>
              ([S3Event.del (popSegment oldUrl)], s3.deleteOk (popSegment oldUrl))
            | none => ([], true)
          if ! oldDel.2 then
            { status := 400, saved := none, events := del.1 ++ putEvents ++ oldDel.1 }
          else if ! s3.uploadOk video.originalname then
            { status := 400, saved := none,
              events := del.1 ++ putEvents ++ oldDel.1 ++ [S3Event.put video.originalname] }
          else
            { status := 200,
              saved := some { p2 with video := some (s3UrlNoRegion bucket video.originalname) },
              events := del.1 ++ putEvents ++ oldDel.1 ++ [S3Event.put video.originalname] }
        | none => { status := 200, saved := some p2, events := del.1 ++ putEvents }

/-- The parsed POST /addProject multipart request. -/
structure AddProjectReq where
  title : String
  location : String
  year : Int
  description : String
  images : List FilePart
  video : Option FilePart
deriving DecidableEq

/-- Shallow embedding of the POST /addProject handler (src/routes/projects.js
lines 88-146). The map starts every image upload; an optional video upload is
awaited next; Promise.all then joins the image uploads; on success the saved
document derives each image URL and the video URL from the template with no
region segment. -/
def addProject (bucket : String) (s3 : S3) (req : AddProjectReq) : HandlerResult :=
  let putEvents := req.images.map fun image => S3Event.put image.originalname
  let imagesOk := req.images.all fun image => s3.uploadOk image.originalname
  match req.video with
  | some video =>
    let events := putEvents ++ [S3Event.put video.originalname]
    if ! s3.uploadOk video.originalname then
      { status := 400, saved := none, events := events }
    else if ! imagesOk then
      { status := 400, saved := none, events := events }
    else
      { status := 201,
        saved := some
          { title := req.title, location := req.location, year := req.year,
            description := req.description,
            images := req.images.map fun image => s3UrlNoRegion bucket image.originalname,
            video := some (s3UrlNoRegion bucket video.originalname) },
        events := events }
  | none =>
    if ! imagesOk then
      { status := 400, saved := none, events := putEvents }
    else
      { status := 201,
        saved := some
          { title := req.title, location := req.location, year := req.year,
            description := req.description,
            images := req.images.map fun image => s3UrlNoRegion bucket image.originalname,
            video := none },
        events := putEvents }

/-- A partner document (src models Partners, src/unnamed/part_004). -/
structure PartnerRec where
  fullName : String
  quote : String
  description : String
  imageUrl : String
deriving DecidableEq

/-- Outcome of a partner handler. -/
structure PartnerResult where
  status : Nat
  saved : Option PartnerRec
  events : List S3Event
deriving DecidableEq

/-- Shallow embedding of the POST /addPartner handler (src/routes/partners.js
lines 74-117): the image file is required, its upload is awaited, and the
stored imageUrl uses the template with no region segment. -/
def addPartner (bucket : String) (s3 : S3)
    (fullName quote description : String) (file : Option FilePart) : PartnerResult :=
  match file with
  | none => { status := 400, saved := none, events := [] }
  | some f =>
    if ! s3.uploadOk f.originalname then
      { status := 500, saved := none, events := [S3Event.put f.originalname] }
    else
      { status := 201,
        saved := some
          { fullName := fullName, quote := quote, description := description,
            imageUrl := s3UrlNoRegion bucket f.originalname },
        events := [S3Event.put f.originalname] }

/-- Outcome of a DELETE /deleteProject handler: status, whether the database
record was removed, and the object-store calls issued. -/
structure DeleteResult where
  status : Nat
  dbDeleted : Bool
  events : List S3Event
deriving DecidableEq

/-- Shallow embedding of the first DELETE /deleteProject copy
(src/routes/projects.js lines 169-182): findByIdAndDelete then respond; no
object-store call is made. -/
def deleteProjectNoAssets (found : Option ProjectRec) : DeleteResult :=
  match found with
  | none => { status := 404, dbDeleted := false, events := [] }
  | some _ => { status := 200, dbDeleted := true, events := [] }

/-- Shallow embedding of the second DELETE /deleteProject copy
(src/routes/projects.js lines 598-636): the map fires a delete for every
image key, the video delete is awaited next when a video is present, the
joins follow, and only then is the database record removed; any rejected
delete throws before the database call, yielding 500. -/
def deleteProjectWithAssets (s3 : S3) (found : Option ProjectRec) : DeleteResult :=
  match found with
  | none => { status := 404, dbDeleted := false, events := [] }
  | some project =>
    let imageKeys := project.images.map popSegment
    let videoKey := project.video.map popSegment
    let events := imageKeys.map S3Event.del ++
      (match videoKey with
       | some k => [S3Event.del k]
       | none => [])
    let ok := imageKeys.all s3.deleteOk &&
      (match videoKey with
       | some k => s3.deleteOk k
       | none => true)
    if ok then { status := 200, dbDeleted := true, events := events }
    else { status := 500, dbDeleted := false, events := events }

/-! ## Helper lemmas on the delete loop -/

/-- The delete loop completes exactly when every key in the list is accepted
by the store. -/
theorem runDeletes_completes (s3 : S3) (ks : List String) :
    (runDeletes s3 ks).2 = ks.all s3.deleteOk := by
  induction ks with
  | nil => rfl
  | cons k ks ih =>
    by_cases h : s3.deleteOk k = true
    · simp [runDeletes, h, ih]
    · simp [runDeletes, h]

/-- Every event issued by the delete loop is a delete. -/
theorem runDeletes_only_deletes (s3 : S3) (ks : List String) :
    ∀ e ∈ (runDeletes s3 ks).1, ∃ k, e = S3Event.del k := by
  induction ks with
  | nil => intro e he; simp [runDeletes] at he
  | cons k ks ih =>
    intro e he
    by_cases h : s3.deleteOk k = true
    · simp only [runDeletes, h, if_true, List.mem_cons] at he
      rcases he with he | he
      · exact ⟨k, he⟩
      · exact ih e he
    · simp only [runDeletes, h] at he
      simp at he
      exact ⟨k, he⟩

/-! ## Claim theorems about the project handlers -/

/-- C1: evaluated at a project whose images are the a.jpg and b.jpg URLs and
a request submitting only b.jpg, the active update handler deletes a.jpg from
storage but persists, next to the surviving b.jpg URL, the junk URL built
from the string undefined, because uploadFile resolves with no value; the
part_007 variant of the handler persists only b.jpg URLs, exhibiting the
intended behaviour. -/
theorem updateProject_persists_undefined_url :
    (updateProject "bkt" ⟨fun _ => true, fun _ => true⟩
        ⟨none, none, none, none, [⟨"b.jpg", "tmp-b", "image/jpeg"⟩], none⟩
        (some ⟨"t", "l", 2021, "d",
          [s3UrlNoRegion "bkt" "a.jpg", s3UrlNoRegion "bkt" "b.jpg"], none⟩) =
      { status := 200,
        saved := some ⟨"t", "l", 2021, "d",
          [s3UrlNoRegion "bkt" "b.jpg", s3UrlNoRegion "bkt" "undefined"], none⟩,
        events := [S3Event.del "a.jpg", S3Event.put "b.jpg"] }) ∧
    (updateProjectVariant "bkt" "eu-west-1" ⟨fun _ => true, fun _ => true⟩
        ⟨none, none, none, none, [⟨"b.jpg", "tmp-b", "image/jpeg"⟩], none⟩
        (some ⟨"t", "l", 2021, "d",
          [s3UrlNoRegion "bkt" "a.jpg", s3UrlNoRegion "bkt" "b.jpg"], none⟩) =
      { status := 200,
        saved := some ⟨"t", "l", 2021, "d",
          [s3UrlNoRegion "bkt" "b.jpg", s3UrlWithRegion "bkt" "eu-west-1" "b.jpg"], none⟩,
        events := [S3Event.del "a.jpg", S3Event.put "b.jpg"] }) ∧
    s3UrlNoRegion "bkt" "undefined" ≠ s3UrlNoRegion "bkt" "b.jpg" := by
  exact ⟨by decide, by decide, by decide⟩

/-- C3 counterexample: with two stale images and a store that rejects the
delete of a.jpg, the active update handler answers 400 without attempting the
delete of b.jpg and without a database write: a failed remove call aborts the
batch instead of being logged and skipped. -/
theorem updateProject_remove_failure_aborts_counterexample :
    updateProject "bkt" ⟨fun _ => true, fun k => k != "a.jpg"⟩
        ⟨none, none, none, none, [], none⟩
        (some ⟨"t", "l", 2021, "d",
          [s3UrlNoRegion "bkt" "a.jpg", s3UrlNoRegion "bkt" "b.jpg"], none⟩) =
      { status := 400, saved := none, events := [S3Event.del "a.jpg"] } := by
  decide

/-- C3 amended: in the active update handler a failed remove call is fatal to
the request: whenever some scheduled key is rejected by the store, the
response is 400, no database write happens, and no upload is ever issued. -/
theorem updateProject_remove_failure_is_fatal (bucket : String) (s3 : S3)
    (req : UpdateReq) (proj : ProjectRec)
    (h : ((imagesToDelete req.images proj.images).map popSegment).all s3.deleteOk = false) :
    (updateProject bucket s3 req (some proj)).status = 400 ∧
    (updateProject bucket s3 req (some proj)).saved = none ∧
    ∀ key, S3Event.put key ∉ (updateProject bucket s3 req (some proj)).events := by
  have hfail : (runDeletes s3 ((imagesToDelete req.images proj.images).map popSegment)).2
      = false := by rw [runDeletes_completes]; exact h
  have hmain : updateProject bucket s3 req (some proj) =
      { status := 400, saved := none,
        events := (runDeletes s3 ((imagesToDelete req.images proj.images).map popSegment)).1 } := by
    simp [updateProject, hfail]
  refine ⟨by rw [hmain], by rw [hmain], ?_⟩
  intro key hkey
  rw [hmain] at hkey
  rcases runDeletes_only_deletes s3 _ _ hkey with ⟨k, hk⟩
  exact S3Event.noConfusion hk

/-- Witness for the C3 amended theorem at the counterexample input. -/
theorem updateProject_remove_failure_is_fatal_witness :
    ((imagesToDelete ([] : List FilePart)
        [s3UrlNoRegion "bkt" "a.jpg", s3UrlNoRegion "bkt" "b.jpg"]).map popSegment).all
        (fun k => k != "a.jpg") = false ∧
    (updateProject "bkt" ⟨fun _ => true, fun k => k != "a.jpg"⟩
        ⟨none, none, none, none, [], none⟩
        (some ⟨"t", "l", 2021, "d",
          [s3UrlNoRegion "bkt" "a.jpg", s3UrlNoRegion "bkt" "b.jpg"], none⟩)).status = 400 := by
  refine ⟨by decide, ?_⟩
  exact (updateProject_remove_failure_is_fatal "bkt" ⟨fun _ => true, fun k => k != "a.jpg"⟩
    ⟨none, none, none, none, [], none⟩
    ⟨"t", "l", 2021, "d",
      [s3UrlNoRegion "bkt" "a.jpg", s3UrlNoRegion "bkt" "b.jpg"], none⟩ (by decide)).1

/-- C2: the active update handler writes the record to the database only
when every upload succeeded, and whenever some image upload is rejected the
request answers 400 with no database write, leaving the stored asset list
unchanged. -/
theorem updateProject_db_write_requires_uploads (bucket : String) (s3 : S3)
    (req : UpdateReq) (proj : ProjectRec) :
    ((updateProject bucket s3 req (some proj)).saved ≠ none →
      req.images.all (fun image => s3.uploadOk image.originalname) = true ∧
      ∀ v ∈ req.video, s3.uploadOk v.originalname = true) ∧
    (req.images.all (fun image => s3.uploadOk image.originalname) = false →
      (updateProject bucket s3 req (some proj)).status = 400 ∧
      (updateProject bucket s3 req (some proj)).saved = none) := by
  cases hdel : (runDeletes s3 ((imagesToDelete req.images proj.images).map popSegment)).2 with
  | false =>
    have hmain : updateProject bucket s3 req (some proj) =
        { status := 400, saved := none,
          events := (runDeletes s3 ((imagesToDelete req.images proj.images).map popSegment)).1 } := by
      simp [updateProject, hdel]
    constructor
    · intro hs; rw [hmain] at hs; simp at hs
    · intro _; exact ⟨by rw [hmain], by rw [hmain]⟩
  | true =>
    cases hup : req.images.all (fun image => s3.uploadOk image.originalname) with
    | false =>
      have hmain : updateProject bucket s3 req (some proj) =
          { status := 400, saved := none,
            events := (runDeletes s3 ((imagesToDelete req.images proj.images).map popSegment)).1
              ++ req.images.map fun image => S3Event.put image.originalname } := by
        simp [updateProject, hdel, hup]
      constructor
      · intro hs; rw [hmain] at hs; simp at hs
      · intro _; exact ⟨by rw [hmain], by rw [hmain]⟩
    | true =>
      constructor
      · intro hs
        refine ⟨rfl, ?_⟩
        intro v hvmem
        rw [Option.mem_def] at hvmem
        cases hvu : s3.uploadOk v.originalname with
        | true => rfl
        | false =>
          exfalso
          apply hs
          rcases hpv : proj.video with _ | oldUrl
          · simp [updateProject, hdel, hup, hvmem, hpv, hvu]
          · cases hdv : s3.deleteOk (popSegment oldUrl) with
            | true => simp [updateProject, hdel, hup, hvmem, hpv, hdv, hvu]
            | false => simp [updateProject, hdel, hup, hvmem, hpv, hdv]
      · intro hfalse
        simp at hfalse

/-- Witness for C2: a rejected upload of b.jpg yields 400 and no database
write. -/
theorem updateProject_db_write_requires_uploads_witness :
    ([⟨"b.jpg", "tmp-b", "image/jpeg"⟩] : List FilePart).all
        (fun image => (⟨fun _ => false, fun _ => true⟩ : S3).uploadOk image.originalname) = false ∧
    (updateProject "bkt" ⟨fun _ => false, fun _ => true⟩
        ⟨none, none, none, none, [⟨"b.jpg", "tmp-b", "image/jpeg"⟩], none⟩
        (some ⟨"t", "l", 2021, "d", [s3UrlNoRegion "bkt" "b.jpg"], none⟩)).status = 400 ∧
    (updateProject "bkt" ⟨fun _ => false, fun _ => true⟩
        ⟨none, none, none, none, [⟨"b.jpg", "tmp-b", "image/jpeg"⟩], none⟩
        (some ⟨"t", "l", 2021, "d", [s3UrlNoRegion "bkt" "b.jpg"], none⟩)).saved = none := by
  refine ⟨by decide, ?_⟩
  exact (updateProject_db_write_requires_uploads "bkt" ⟨fun _ => false, fun _ => true⟩
    ⟨none, none, none, none, [⟨"b.jpg", "tmp-b", "image/jpeg"⟩], none⟩
    ⟨"t", "l", 2021, "d", [s3UrlNoRegion "bkt" "b.jpg"], none⟩).2 (by decide)

/-- C4 counterexample: the POST /addProject scenario with a single image
img1.jpg responds 201 with an image URL that omits the region segment, so the
stored URL differs from the canonical publicUrl formatting of the spec for
any region, here shown at eu-west-1. -/
theorem addProject_url_omits_region_counterexample :
    (addProject "bkt" ⟨fun _ => true, fun _ => true⟩
        ⟨"Villa A", "Beirut", 2021, "x", [⟨"img1.jpg", "tmp1", "image/jpeg"⟩], none⟩ =
      { status := 201,
        saved := some ⟨"Villa A", "Beirut", 2021, "x",
          ["https://bkt.s3.amazonaws.com/img1.jpg"], none⟩,
        events := [S3Event.put "img1.jpg"] }) ∧
    "https://bkt.s3.amazonaws.com/img1.jpg" ≠ publicUrl_spec "bkt" "eu-west-1" "img1.jpg" := by
  exact ⟨by decide, by decide⟩

/-- C4 amended: the URLs persisted by addProject (images and video) and by
addPartner (imageUrl) are all produced by the template that omits the region
segment. -/
theorem creation_urls_omit_region (bucket : String) (s3 : S3) (req : AddProjectReq)
    (fullName quote description : String) (f : FilePart) :
    (∀ proj, (addProject bucket s3 req).saved = some proj →
      proj.images = req.images.map (fun image => s3UrlNoRegion bucket image.originalname) ∧
      proj.video = req.video.map (fun v => s3UrlNoRegion bucket v.originalname)) ∧
    (∀ partner, (addPartner bucket s3 fullName quote description (some f)).saved = some partner →
      partner.imageUrl = s3UrlNoRegion bucket f.originalname) := by
  constructor
  · intro proj hproj
    simp only [addProject] at hproj
    rcases hv : req.video with _ | video
    · rw [hv] at hproj
      cases hio : req.images.all (fun image => s3.uploadOk image.originalname) with
      | false => simp [hio] at hproj
      | true =>
        simp only [hio, Bool.not_true, Bool.false_eq_true, if_false] at hproj
        simp only [Option.some.injEq] at hproj
        rw [← hproj]
        exact ⟨rfl, rfl⟩
    · rw [hv] at hproj
      cases hvu : s3.uploadOk video.originalname with
      | false => simp [hvu] at hproj
      | true =>
        cases hio : req.images.all (fun image => s3.uploadOk image.originalname) with
        | false => simp [hvu, hio] at hproj
        | true =>
          simp only [hvu, hio, Bool.not_true, Bool.false_eq_true, if_false] at hproj
          simp only [Option.some.injEq] at hproj
          rw [← hproj]
          exact ⟨rfl, rfl⟩
  · intro partner hpartner
    simp only [addPartner] at hpartner
    cases hfu : s3.uploadOk f.originalname with
    | false => simp [hfu] at hpartner
    | true =>
      simp only [hfu, Bool.not_true, Bool.false_eq_true, if_false] at hpartner
      simp only [Option.some.injEq] at hpartner
      rw [← hpartner]

/-- Witness for the C4 amended theorem at the end-to-end scenario input. -/
theorem creation_urls_omit_region_witness :
    (addProject "bkt" ⟨fun _ => true, fun _ => true⟩
        ⟨"Villa A", "Beirut", 2021, "x", [⟨"img1.jpg", "tmp1", "image/jpeg"⟩], none⟩).saved =
      some ⟨"Villa A", "Beirut", 2021, "x",
        ["https://bkt.s3.amazonaws.com/img1.jpg"], none⟩ ∧
    (⟨"Villa A", "Beirut", 2021, "x",
        ["https://bkt.s3.amazonaws.com/img1.jpg"], none⟩ : ProjectRec).images =
      ([⟨"img1.jpg", "tmp1", "image/jpeg"⟩] : List FilePart).map
        (fun image => s3UrlNoRegion "bkt" image.originalname) := by
  refine ⟨by decide, ?_⟩
  exact ((creation_urls_omit_region "bkt" ⟨fun _ => true, fun _ => true⟩
    ⟨"Villa A", "Beirut", 2021, "x", [⟨"img1.jpg", "tmp1", "image/jpeg"⟩], none⟩
    "n" "q" "d" ⟨"p.jpg", "t", "image/png"⟩).1 _ (by decide)).1

/-- C5 counterexample: the first deleteProject copy reports success and
removes the database record of a project that references an image and a
video, while issuing no object-store call at all. -/
theorem deleteProject_first_copy_releases_nothing :
    deleteProjectNoAssets
        (some ⟨"t", "l", 2021, "d", [s3UrlNoRegion "bkt" "a.jpg"],
          some (s3UrlNoRegion "bkt" "v.mp4")⟩) =
      { status := 200, dbDeleted := true, events := [] } := by
  decide

/-- C5 amended: the second deleteProject copy issues a storage delete for the
key of every referenced image URL and for the video key when present, and
when the store accepts all of them it answers 200 and removes the database
record. -/
theorem deleteProjectWithAssets_releases_all (s3 : S3) (proj : ProjectRec) :
    (∀ url ∈ proj.images,
      S3Event.del (popSegment url) ∈ (deleteProjectWithAssets s3 (some proj)).events) ∧
    (∀ vurl ∈ proj.video,
      S3Event.del (popSegment vurl) ∈ (deleteProjectWithAssets s3 (some proj)).events) ∧
    ((proj.images.map popSegment).all s3.deleteOk = true →
      (∀ vurl ∈ proj.video, s3.deleteOk (popSegment vurl) = true) →
      (deleteProjectWithAssets s3 (some proj)).status = 200 ∧
      (deleteProjectWithAssets s3 (some proj)).dbDeleted = true) := by
  have hev : (deleteProjectWithAssets s3 (some proj)).events =
      (proj.images.map popSegment).map S3Event.del ++
        (match proj.video.map popSegment with
         | some k => [S3Event.del k]
         | none => []) := by
    simp only [deleteProjectWithAssets]
    split <;> rfl
  refine ⟨?_, ?_, ?_⟩
  · intro url hurl
    rw [hev]
    exact List.mem_append_left _ (List.mem_map_of_mem _ (List.mem_map_of_mem _ hurl))
  · intro vurl hvm
    rw [hev]
    refine List.mem_append_right _ ?_
    rcases hpv : proj.video with _ | v
    · rw [hpv] at hvm; simp at hvm
    · rw [hpv] at hvm
      simp only [Option.mem_def, Option.some.injEq] at hvm
      subst hvm
      simp [hpv]
  · intro himg hvid
    have hvidOk : (match proj.video.map popSegment with
        | some k => s3.deleteOk k
        | none => true) = true := by
      rcases hpv : proj.video with _ | v
      · rfl
      · simpa using hvid v (by rw [hpv]; rfl)
    have hok : ((proj.images.map popSegment).all s3.deleteOk &&
        (match proj.video.map popSegment with
         | some k => s3.deleteOk k
         | none => true)) = true := by
      rw [himg, hvidOk]; rfl
    constructor
    · simp only [deleteProjectWithAssets]
      rw [if_pos hok]
    · simp only [deleteProjectWithAssets]
      rw [if_pos hok]

/-- Witness for the C5 amended theorem at a project holding one image and a
video, with a store that accepts every delete. -/
theorem deleteProjectWithAssets_releases_all_witness :
    S3Event.del "a.jpg" ∈ (deleteProjectWithAssets ⟨fun _ => true, fun _ => true⟩
      (some ⟨"t", "l", 2021, "d", [s3UrlNoRegion "bkt" "a.jpg"],
        some (s3UrlNoRegion "bkt" "v.mp4")⟩)).events ∧
    (deleteProjectWithAssets ⟨fun _ => true, fun _ => true⟩
      (some ⟨"t", "l", 2021, "d", [s3UrlNoRegion "bkt" "a.jpg"],
        some (s3UrlNoRegion "bkt" "v.mp4")⟩)).status = 200 := by
  have h := deleteProjectWithAssets_releases_all ⟨fun _ => true, fun _ => true⟩
    ⟨"t", "l", 2021, "d", [s3UrlNoRegion "bkt" "a.jpg"], some (s3UrlNoRegion "bkt" "v.mp4")⟩
  refine ⟨?_, ?_⟩
  · have := h.1 (s3UrlNoRegion "bkt" "a.jpg") (by decide)
    simpa using this
  · exact (h.2.2 (by decide) (fun vurl hv => by
      simp only [Option.mem_def, Option.some.injEq] at hv
      rw [← hv])).1

/-- C6: on an update request that supplies a new title but no video file, the
active update handler does not retain the stored video: it deletes the video
object from storage and persists the record with a null video, contradicting
the retain-if-absent pattern (and the adjacent comment in the source); the
part_007 variant of the handler retains the video untouched. -/
theorem updateProject_clears_absent_video :
    (updateProject "bkt" ⟨fun _ => true, fun _ => true⟩
        ⟨some "T2", none, none, none, [], none⟩
        (some ⟨"t", "l", 2021, "d", [], some (s3UrlNoRegion "bkt" "v.mp4")⟩) =
      { status := 200,
        saved := some ⟨"T2", "l", 2021, "d", [], none⟩,
        events := [S3Event.del "v.mp4"] }) ∧
    (updateProjectVariant "bkt" "eu-west-1" ⟨fun _ => true, fun _ => true⟩
        ⟨some "T2", none, none, none, [], none⟩
        (some ⟨"t", "l", 2021, "d", [], some (s3UrlNoRegion "bkt" "v.mp4")⟩) =
      { status := 200,
        saved := some ⟨"T2", "l", 2021, "d", [], some (s3UrlNoRegion "bkt" "v.mp4")⟩,
        events := [] }) := by
  exact ⟨by decide, by decide⟩

end Backend360
